import Mathlib

/-!
Verification of the LowPowerClock drift-calibration and wake-scheduling engine
(src/src/main.cpp) against its natural-language specification.

Shallow embedding notes:
* `time_t` values, `long`/`int64_t` arithmetic and `millis()` readings are
  modelled as `Int`; operational hypotheses in the theorems keep all values
  inside the machine ranges actually exercised by the device, and the
  numeric-range theorem for the drift computation shows the intermediates
  stay far inside a 64-bit signed integer there.
* C integer division truncates toward zero, so it is embedded as `Int.tdiv`.
* A C integer division by zero is undefined behaviour (a crash on the
  target); the function embedding that code therefore returns `Option`,
  with `none` on the division-by-zero path.
* The one-shot NTP exchange (send request, wait up to 1500 ms for a packet
  of at least 48 bytes) is a collaborator boundary; its outcome is an
  `Option Int` input: `some t` for a decoded transmit timestamp already
  converted to the 1970 epoch, `none` when no packet of at least
  `NTP_PACKET_SIZE` bytes arrives inside the wait window.
* `second(t)` from TimeLib extracts `t % 60`; `now()` within one wake cycle
  is modelled as a single value `nowT` (plus an explicit awake-elapsed
  parameter where the code reads clocks at distinct moments).
-/

namespace LowPowerClock

/-- `typedef enum {NTP=0, Estimate=1} Sync;` from main.cpp. -/
inductive Sync where
  | NTP
  | Estimate
deriving DecidableEq, Repr

/-- The `rtcStore` record persisted in RTC memory across deep sleeps
(main.cpp lines 54-60).  `wakeTime` and `lastNTP` are `time_t` seconds,
`driftPerMinute` is `int64_t` microseconds per minute (positive means the
local clock runs slow). -/
structure rtcStore where
  wakeTime : Int
  lastNTP : Int
  syncType : Sync
  iterations : Nat
  driftPerMinute : Int
deriving DecidableEq, Repr

/-- `#define NTP_INTERVAL (rtcMem.iterations<12 ? 600 : 28800)`
(main.cpp line 37): the re-anchor threshold in seconds as a function of the
iteration count. -/
def NTP_INTERVAL (iterations : Nat) : Int :=
  if iterations < 12 then 600 else 28800

/-- `long drift = ntpTime - rtcMem.wakeTime; drift = (drift * 1000) - millis();`
(main.cpp lines 256-257): the residual drift in milliseconds measured at an
authoritative observation. -/
def driftMillisOf (ntpTime wakeTime elapsedMillis : Int) : Int :=
  (ntpTime - wakeTime) * 1000 - elapsedMillis

/-- `1000 * ((60 * drift) / interval)` (main.cpp line 262): the correction
increment in microseconds per minute.  The division happens after the
multiplication by 60, in C truncating semantics. -/
def driftIncrementOf (driftMillis interval : Int) : Int :=
  1000 * ((60 * driftMillis).tdiv interval)

/-- `LPgetNtpTime` (main.cpp lines 216-273), the sync provider.
In `Estimate` mode it returns the scheduled `wakeTime` untouched.  In `NTP`
mode, `resp` is the outcome of the UDP exchange: `none` when no response of
at least 48 bytes arrived within the 1500 ms window (the code then returns
the sentinel `0`), `some ntpTime` for a decoded response.  On a response
with `rtcMem.lastNTP > 0` the code updates `driftPerMinute` additively and
then sets `lastNTP`; the division by `interval` has no guard in the source,
so a zero interval is a division by zero, embedded as `none` (crash). -/
def LPgetNtpTime (s : rtcStore) (resp : Option Int) (elapsedMillis : Int) :
    Option (Int × rtcStore) :=
  match s.syncType with
  | Sync.Estimate => some (s.wakeTime, s)
  | Sync.NTP =>
    match resp with
    | none => some (0, s)
    | some ntpTime =>
      if s.lastNTP > 0 then
        let driftMs := driftMillisOf ntpTime s.wakeTime elapsedMillis
        let interval := ntpTime - s.lastNTP
        if interval = 0 then
          none
        else
          some (ntpTime,
            { s with
              driftPerMinute := s.driftPerMinute + driftIncrementOf driftMs interval,
              lastNTP := ntpTime })
      else
        some (ntpTime, { s with lastNTP := ntpTime })

/-- The body of `loop()` once the time is set (main.cpp lines 119-147):
decide next cycle's sync mode from `NTP_INTERVAL`, round `nowT` up to the
next whole minute for `wakeTime`, and compute the sleep duration in
microseconds as `sleepSeconds * 1E6 - rtcMem.driftPerMinute`.  The second
component is the mathematical value of that expression (exact, since the
operands are far below 2^53 so the `double` arithmetic is exact); the code
stores it into a `uint64_t` with no sign guard. -/
def loopBody (s : rtcStore) (nowT : Int) : rtcStore × Int :=
  let syncType' := if nowT - s.lastNTP > NTP_INTERVAL s.iterations
    then Sync.NTP else Sync.Estimate
  let sleepSeconds := 60 - nowT % 60
  let wakeTime' := nowT + sleepSeconds
  let USeconds := sleepSeconds * 1000000 - s.driftPerMinute
  ({ s with syncType := syncType', wakeTime := wakeTime' }, USeconds)

/-- The warm-wake path of `setup()` (main.cpp lines 93-97): RTC memory is
reloaded and `iterations` is incremented. -/
def setupWarm (s : rtcStore) : rtcStore :=
  { s with iterations := s.iterations + 1 }

/-- One full wake cycle in `Estimate` mode: warm setup increments
`iterations`, the provider returns `s.wakeTime` (setting the clock) without
touching the state, and `loopBody` runs with `now()` equal to the scheduled
wake time plus the seconds spent awake `e`. -/
def estimateCycle (s : rtcStore) (e : Int) : rtcStore :=
  (loopBody (setupWarm s) (s.wakeTime + e)).1

/-- A run of consecutive estimate-mode cycles, one awake-elapsed value per
cycle. -/
def estimateCycles (s : rtcStore) (es : List Int) : rtcStore :=
  es.foldl estimateCycle s

/-- Checks that every state along a run of estimate cycles, the final state
included, is in `Estimate` mode: the run consists of cycles that all run
(and keep scheduling) the estimate path. -/
def allEstimateRun : rtcStore → List Int → Bool
  | s, [] => s.syncType == Sync.Estimate
  | s, e :: es => (s.syncType == Sync.Estimate) && allEstimateRun (estimateCycle s e) es

/-- The sleep-duration formula as the specification words it for
`secondsToBoundary ≠ 60`: the per-minute correction scaled by
`secondsToBoundary / 60` (computed multiply-first in exact integer
arithmetic).  Stated from the spec for comparison with the code's
`loopBody`; it is not what the source computes. -/
def sleepMicrosSpec (secondsToBoundary driftPerMinute : Int) : Int :=
  secondsToBoundary * 1000000 - (driftPerMinute * secondsToBoundary).tdiv 60

/-! ## Helper lemmas -/

/-- A run of estimate cycles starts in `Estimate` mode. -/
theorem allEstimateRun_head (s : rtcStore) (es : List Int)
    (h : allEstimateRun s es = true) : s.syncType = Sync.Estimate := by
  cases es with
  | nil => simpa [allEstimateRun] using h
  | cons e es =>
    simp only [allEstimateRun, Bool.and_eq_true, beq_iff_eq] at h
    exact h.1

/-- One estimate cycle leaves the drift correction and the last
authoritative time untouched and increments the iteration count. -/
theorem estimateCycle_frame_step (s : rtcStore) (e : Int) :
    (estimateCycle s e).driftPerMinute = s.driftPerMinute ∧
    (estimateCycle s e).lastNTP = s.lastNTP ∧
    (estimateCycle s e).iterations = s.iterations + 1 := by
  obtain ⟨w, l, st, it, d⟩ := s
  simp [estimateCycle, setupWarm, loopBody]

/-- One estimate cycle with a non-negative awake time moves `wakeTime`
strictly forward, onto a minute boundary. -/
theorem estimateCycle_wakeTime_step (s : rtcStore) (e : Int) (he : 0 ≤ e) :
    (estimateCycle s e).wakeTime % 60 = 0 ∧
    s.wakeTime < (estimateCycle s e).wakeTime := by
  obtain ⟨w, l, st, it, d⟩ := s
  simp only [estimateCycle, setupWarm, loopBody]
  constructor <;> omega

/-! ## Claim theorems -/

/-- Claim C5: the re-anchor threshold is 600 s while `iterations < 12` and
28800 s from `iterations = 12` on; the next mode is `NTP`
(NeedsAuthoritative) exactly when `now - lastNTP` exceeds the threshold,
otherwise `Estimate`; and with identical elapsed time 1000 s, iteration
counts 11 and 12 yield different modes. -/
theorem sync_scheduler_threshold :
    (∀ n : Nat, (NTP_INTERVAL n = 600 ↔ n < 12) ∧ (NTP_INTERVAL n = 28800 ↔ 12 ≤ n)) ∧
    (∀ (s : rtcStore) (nowT : Int),
      ((loopBody s nowT).1.syncType = Sync.NTP ↔
        nowT - s.lastNTP > NTP_INTERVAL s.iterations) ∧
      ((loopBody s nowT).1.syncType = Sync.Estimate ↔
        nowT - s.lastNTP ≤ NTP_INTERVAL s.iterations)) ∧
    (loopBody ⟨0, 0, Sync.Estimate, 11, 0⟩ 1000).1.syncType = Sync.NTP ∧
    (loopBody ⟨0, 0, Sync.Estimate, 12, 0⟩ 1000).1.syncType = Sync.Estimate := by
  refine ⟨?_, ?_, by decide, by decide⟩
  · intro n
    unfold NTP_INTERVAL
    split <;> omega
  · intro s nowT
    obtain ⟨w, l, st, it, d⟩ := s
    simp only [loopBody]
    split <;> simp_all <;> omega

/-- Claim C9: in every cycle, `wakeTime` is set to
`now + (60 - now mod 60)`, which is a minute boundary strictly greater than
`now` by at most 60 seconds. -/
theorem wake_time_minute_boundary (s : rtcStore) (nowT : Int) (h : 0 ≤ nowT) :
    (loopBody s nowT).1.wakeTime = nowT + (60 - nowT % 60) ∧
    (loopBody s nowT).1.wakeTime % 60 = 0 ∧
    nowT < (loopBody s nowT).1.wakeTime ∧
    (loopBody s nowT).1.wakeTime ≤ nowT + 60 := by
  obtain ⟨w, l, st, it, d⟩ := s
  refine ⟨rfl, ?_, ?_, ?_⟩ <;> simp only [loopBody] <;> omega

/-- Claim C9 witness at a concrete state and time. -/
theorem wake_time_minute_boundary_witness :
    (loopBody ⟨0, 0, Sync.Estimate, 3, 500⟩ 130).1.wakeTime = 130 + (60 - (130 : Int) % 60) ∧
    (loopBody ⟨0, 0, Sync.Estimate, 3, 500⟩ 130).1.wakeTime % 60 = 0 ∧
    (130 : Int) < (loopBody ⟨0, 0, Sync.Estimate, 3, 500⟩ 130).1.wakeTime ∧
    (loopBody ⟨0, 0, Sync.Estimate, 3, 500⟩ 130).1.wakeTime ≤ 130 + 60 :=
  wake_time_minute_boundary ⟨0, 0, Sync.Estimate, 3, 500⟩ 130 (by decide)

/-- Claim C8: in `NTP` mode, when no response of at least 48 bytes arrives
within the wait window (`resp = none`), `LPgetNtpTime` returns the sentinel
0 and leaves the whole persisted state — in particular `lastNTP` and
`driftPerMinute` — unchanged; it returns normally rather than halting. -/
theorem source_unavailable (s : rtcStore) (e : Int) (hm : s.syncType = Sync.NTP) :
    LPgetNtpTime s none e = some (0, s) := by
  obtain ⟨w, l, st, it, d⟩ := s
  cases hm
  rfl

/-- Claim C8 witness at a concrete state. -/
theorem source_unavailable_witness :
    LPgetNtpTime ⟨1700000290, 1700000000, Sync.NTP, 3, 2500⟩ none 75 =
      some (0, ⟨1700000290, 1700000000, Sync.NTP, 3, 2500⟩) :=
  source_unavailable ⟨1700000290, 1700000000, Sync.NTP, 3, 2500⟩ 75 rfl

/-- Claim C1: on an authoritative observation with a prior anchor, the code
computes `driftSeconds = ntpTime - wakeTime`,
`driftMillis = driftSeconds * 1000 - elapsedMillis` and adds
`1000 * ((60 * driftMillis) / interval)` microseconds per minute to the
existing `driftPerMinute` (never replacing it); on the spec's worked
example the accumulated correction moves from 2000 to 12000. -/
theorem drift_update_additive :
    (∀ (s : rtcStore) (t e : Int), s.syncType = Sync.NTP → 0 < s.lastNTP →
      t ≠ s.lastNTP →
      LPgetNtpTime s (some t) e =
        some (t,
          { s with
            lastNTP := t,
            driftPerMinute := s.driftPerMinute +
              1000 * ((60 * ((t - s.wakeTime) * 1000 - e)).tdiv (t - s.lastNTP)) })) ∧
    LPgetNtpTime ⟨1700028795, 1700000000, Sync.NTP, 7, 2000⟩ (some 1700028800) 200 =
      some (1700028800, ⟨1700028795, 1700028800, Sync.NTP, 7, 12000⟩) := by
  constructor
  · intro s t e hm hl hne
    obtain ⟨w, l, st, it, d⟩ := s
    cases hm
    simp only [LPgetNtpTime, driftMillisOf, driftIncrementOf]
    rw [if_pos hl, if_neg (sub_ne_zero.mpr hne)]
  · decide

/-- Claim C1 witness: the general additive formula applied at a concrete
anchored observation. -/
theorem drift_update_additive_witness :
    LPgetNtpTime ⟨1000290, 1000000, Sync.NTP, 3, 500⟩ (some 1000350) 150 =
      some (1000350, ⟨1000290, 1000350, Sync.NTP, 3, 10260500⟩) := by
  have h := drift_update_additive.1 ⟨1000290, 1000000, Sync.NTP, 3, 500⟩
    1000350 150 rfl (by decide) (by decide)
  rw [h]
  decide

/-- Claim C2 counterexample: with a prior anchor `lastNTP = 1700000000`, a
duplicate observation (`interval = 0`) is not skipped — the unguarded
division by `interval` divides by zero (the embedded crash `none`), so
neither the old correction nor the `lastNTP` update survives; and an
out-of-order observation (`interval = -10 < 0`) still performs the drift
update instead of skipping it, changing `driftPerMinute` from 2000 to
1800602000. -/
theorem interval_guard_missing :
    LPgetNtpTime ⟨1700000290, 1700000000, Sync.NTP, 3, 2000⟩ (some 1700000000) 100 = none ∧
    LPgetNtpTime ⟨1700000290, 1700000000, Sync.NTP, 3, 2000⟩ (some 1699999990) 100 =
      some (1699999990, ⟨1700000290, 1699999990, Sync.NTP, 3, 1800602000⟩) ∧
    (1800602000 : Int) ≠ 2000 := by
  refine ⟨by decide, by decide, by decide⟩

/-- Claim C2 amended: the source guards only on `lastNTP > 0`, not on the
interval sign.  With a prior anchor, a duplicate observation
(`t = lastNTP`) runs into an unguarded division by zero (crash), and any
non-duplicate observation — including an out-of-order one with a negative
interval — performs the additive drift update with that interval and then
updates `lastNTP`. -/
theorem interval_unguarded_update (s : rtcStore) (t e : Int)
    (hm : s.syncType = Sync.NTP) (hl : 0 < s.lastNTP) :
    (t = s.lastNTP → LPgetNtpTime s (some t) e = none) ∧
    (t ≠ s.lastNTP →
      LPgetNtpTime s (some t) e =
        some (t,
          { s with
            lastNTP := t,
            driftPerMinute := s.driftPerMinute +
              driftIncrementOf (driftMillisOf t s.wakeTime e) (t - s.lastNTP) })) := by
  obtain ⟨w, l, st, it, d⟩ := s
  cases hm
  constructor
  · intro heq
    simp only [LPgetNtpTime]
    rw [if_pos hl, if_pos (by simpa using sub_eq_zero.mpr heq)]
  · intro hne
    simp only [LPgetNtpTime]
    rw [if_pos hl, if_neg (sub_ne_zero.mpr hne)]

/-- Claim C2 amended witness: both branches at concrete inputs. -/
theorem interval_unguarded_update_witness :
    LPgetNtpTime ⟨2000100, 2000000, Sync.NTP, 5, 40⟩ (some 2000000) 25 = none ∧
    LPgetNtpTime ⟨2000100, 2000000, Sync.NTP, 5, 40⟩ (some 2000200) 25 =
      some (2000200, ⟨2000100, 2000200, Sync.NTP, 5,
        40 + driftIncrementOf (driftMillisOf 2000200 2000100 25) 200⟩) := by
  have h := interval_unguarded_update ⟨2000100, 2000000, Sync.NTP, 5, 40⟩
    2000200 25 rfl (by decide)
  have h0 := interval_unguarded_update ⟨2000100, 2000000, Sync.NTP, 5, 40⟩
    2000000 25 rfl (by decide)
  refine ⟨h0.1 rfl, ?_⟩
  rw [h.2 (by decide)]
  decide

/-- Claim C7: `driftPerMinute` changes only on a cycle where the provider
runs in `NTP` mode, a response arrives, and a prior anchor exists
(`lastNTP > 0`); and the very first successful observation
(`lastNTP = 0`) seeds `lastNTP` while leaving `driftPerMinute` untouched. -/
theorem drift_mutation_guard (s : rtcStore) :
    (∀ (resp : Option Int) (e r : Int) (s2 : rtcStore),
      LPgetNtpTime s resp e = some (r, s2) →
      s2.driftPerMinute ≠ s.driftPerMinute →
      s.syncType = Sync.NTP ∧ resp ≠ none ∧ 0 < s.lastNTP) ∧
    (∀ (t e : Int), s.syncType = Sync.NTP → s.lastNTP = 0 →
      LPgetNtpTime s (some t) e = some (t, { s with lastNTP := t }) ∧
      ({ s with lastNTP := t } : rtcStore).driftPerMinute = s.driftPerMinute) := by
  obtain ⟨w, l, st, it, d⟩ := s
  constructor
  · intro resp e r s2 hsome hne
    cases st with
    | Estimate =>
      exfalso
      apply hne
      simp only [LPgetNtpTime] at hsome
      obtain ⟨-, rfl⟩ := Prod.mk.injEq .. ▸ Option.some.injEq .. ▸ hsome
      rfl
    | NTP =>
      cases resp with
      | none =>
        exfalso
        apply hne
        simp only [LPgetNtpTime] at hsome
        obtain ⟨-, rfl⟩ := Prod.mk.injEq .. ▸ Option.some.injEq .. ▸ hsome
        rfl
      | some t =>
        refine ⟨rfl, by simp, ?_⟩
        by_contra hl
        apply hne
        simp only [LPgetNtpTime, if_neg hl] at hsome
        obtain ⟨-, rfl⟩ := Prod.mk.injEq .. ▸ Option.some.injEq .. ▸ hsome
        rfl
  · intro t e hm hl
    cases hm
    subst hl
    exact ⟨by simp only [LPgetNtpTime]; rw [if_neg (by omega)], rfl⟩

/-- Claim C7 witness: a first successful observation seeds `lastNTP` and
leaves the correction at its prior value. -/
theorem drift_mutation_guard_witness :
    LPgetNtpTime ⟨300, 0, Sync.NTP, 0, 0⟩ (some 1700000000) 42 =
      some (1700000000, ⟨300, 1700000000, Sync.NTP, 0, 0⟩) ∧
    (⟨300, 1700000000, Sync.NTP, 0, 0⟩ : rtcStore).driftPerMinute =
      (⟨300, 0, Sync.NTP, 0, 0⟩ : rtcStore).driftPerMinute := by
  have h := (drift_mutation_guard ⟨300, 0, Sync.NTP, 0, 0⟩).2 1700000000 42 rfl rfl
  exact ⟨h.1, h.2⟩

/-- Claim C3 counterexample: with `driftPerMinute = 5000000` (inside the
claimed operational range of ±5,000,000 microseconds per minute) and
`secondsToBoundary = 1` (inside [1,60], reached at `now = 59`), the sleep
duration the code computes is `-4000000 < 0`; nothing in the source flags
it — the negative value flows straight into the unsigned 64-bit sleep
argument. -/
theorem sleep_duration_negative_in_range :
    60 - (59 : Int) % 60 = 1 ∧
    ((5000000 : Int).natAbs ≤ 5000000) ∧
    (loopBody ⟨0, 0, Sync.Estimate, 5, 5000000⟩ 59).2 = -4000000 ∧
    (loopBody ⟨0, 0, Sync.Estimate, 5, 5000000⟩ 59).2 < 0 := by
  refine ⟨by decide, by decide, by decide, by decide⟩

/-- Claim C3 amended: the computed sleep duration equals
`secondsToBoundary * 1000000 - driftPerMinute` with no guard, so within
the claimed ±5,000,000 range it is non-negative exactly when the full
per-minute correction does not exceed `secondsToBoundary * 1000000`; a
violating value is neither flagged nor clamped — it is handed to the
unsigned sleep call as is. -/
theorem sleep_sign_characterization (s : rtcStore) (nowT : Int) (h : 0 ≤ nowT) :
    (loopBody s nowT).2 = (60 - nowT % 60) * 1000000 - s.driftPerMinute ∧
    (0 ≤ (loopBody s nowT).2 ↔ s.driftPerMinute ≤ (60 - nowT % 60) * 1000000) := by
  obtain ⟨w, l, st, it, d⟩ := s
  refine ⟨rfl, ?_⟩
  simp only [loopBody]
  omega

/-- Claim C3 amended witness at a concrete in-range state. -/
theorem sleep_sign_characterization_witness :
    (loopBody ⟨0, 0, Sync.Estimate, 5, 3000000⟩ 30).2 =
      (60 - (30 : Int) % 60) * 1000000 - 3000000 ∧
    (0 ≤ (loopBody ⟨0, 0, Sync.Estimate, 5, 3000000⟩ 30).2 ↔
      (3000000 : Int) ≤ (60 - (30 : Int) % 60) * 1000000) := by
  have h := sleep_sign_characterization ⟨0, 0, Sync.Estimate, 5, 3000000⟩ 30 (by decide)
  exact h

/-- Claim C4 counterexample: at `secondsToBoundary = 30` and
`driftPerMinute = 1200`, the code sleeps `30000000 - 1200 = 29998800`
microseconds, while the proportionally scaled formula of the claim yields
`30000000 - 1200 * 30 / 60 = 29999400`; the two differ, so no
proportional scaling takes place for a partial minute. -/
theorem no_proportional_scaling :
    60 - (30 : Int) % 60 = 30 ∧
    (loopBody ⟨0, 0, Sync.Estimate, 5, 1200⟩ 30).2 = 29998800 ∧
    sleepMicrosSpec 30 1200 = 29999400 ∧
    (loopBody ⟨0, 0, Sync.Estimate, 5, 1200⟩ 30).2 ≠ sleepMicrosSpec 30 1200 := by
  refine ⟨by decide, by decide, by decide, by decide⟩

/-- Claim C4 amended: the sleep duration is always
`secondsToBoundary * 1000000` minus the full `accumulatedDriftPerMinute`,
whatever `secondsToBoundary` is; it coincides with the proportionally
scaled formula exactly when the scaled correction happens to equal the
full correction (as at `secondsToBoundary = 60`). -/
theorem full_correction_always_applied (s : rtcStore) (nowT : Int) :
    (loopBody s nowT).2 = (60 - nowT % 60) * 1000000 - s.driftPerMinute ∧
    ((loopBody s nowT).2 = sleepMicrosSpec (60 - nowT % 60) s.driftPerMinute ↔
      (s.driftPerMinute * (60 - nowT % 60)).tdiv 60 = s.driftPerMinute) := by
  obtain ⟨w, l, st, it, d⟩ := s
  refine ⟨rfl, ?_⟩
  show (60 - nowT % 60) * 1000000 - d =
      (60 - nowT % 60) * 1000000 - (d * (60 - nowT % 60)).tdiv 60 ↔ _
  rw [sub_right_inj]
  exact eq_comm

/-- Claim C6: a run of consecutive estimate-mode cycles leaves
`driftPerMinute` and `lastNTP` unchanged and keeps the sync mode; only
`iterations` (by one per cycle) and `wakeTime` (strictly forward, onto a
minute boundary) advance. -/
theorem estimate_cycles_frame (s : rtcStore) (es : List Int)
    (hpos : ∀ e ∈ es, 0 ≤ e) (hrun : allEstimateRun s es = true) :
    (estimateCycles s es).driftPerMinute = s.driftPerMinute ∧
    (estimateCycles s es).lastNTP = s.lastNTP ∧
    (estimateCycles s es).iterations = s.iterations + es.length ∧
    (estimateCycles s es).syncType = s.syncType ∧
    (es ≠ [] →
      (estimateCycles s es).wakeTime % 60 = 0 ∧
      s.wakeTime < (estimateCycles s es).wakeTime) := by
  induction es generalizing s with
  | nil => simp [estimateCycles]
  | cons e es ih =>
    have hrun1 : allEstimateRun (estimateCycle s e) es = true := by
      simp only [allEstimateRun, Bool.and_eq_true] at hrun
      exact hrun.2
    have hS : s.syncType = Sync.Estimate := allEstimateRun_head s (e :: es) hrun
    have hS1 : (estimateCycle s e).syncType = Sync.Estimate :=
      allEstimateRun_head _ es hrun1
    have hpos1 : ∀ x ∈ es, 0 ≤ x := fun x hx => hpos x (List.mem_cons_of_mem _ hx)
    have he : (0 : Int) ≤ e := hpos e (List.mem_cons_self _ _)
    have hstep := estimateCycle_frame_step s e
    have hwake := estimateCycle_wakeTime_step s e he
    have ihh := ih (estimateCycle s e) hpos1 hrun1
    have hfold : estimateCycles s (e :: es) = estimateCycles (estimateCycle s e) es := rfl
    rw [hfold]
    refine ⟨?_, ?_, ?_, ?_, ?_⟩
    · rw [ihh.1, hstep.1]
    · rw [ihh.2.1, hstep.2.1]
    · rw [ihh.2.2.1, hstep.2.2]
      simp only [List.length_cons]
      omega
    · rw [ihh.2.2.2.1, hS1, hS]
    · intro _
      cases es with
      | nil => exact hwake
      | cons e2 es2 =>
        have h2 := ihh.2.2.2.2 (by simp)
        exact ⟨h2.1, lt_trans hwake.2 h2.2⟩

/-- Claim C6 witness: a concrete two-cycle estimate run. -/
theorem estimate_cycles_frame_witness :
    (estimateCycles ⟨120, 50, Sync.Estimate, 2, 7⟩ [3, 0]).driftPerMinute = 7 ∧
    (estimateCycles ⟨120, 50, Sync.Estimate, 2, 7⟩ [3, 0]).lastNTP = 50 ∧
    (estimateCycles ⟨120, 50, Sync.Estimate, 2, 7⟩ [3, 0]).iterations = 4 ∧
    (estimateCycles ⟨120, 50, Sync.Estimate, 2, 7⟩ [3, 0]).syncType = Sync.Estimate ∧
    (estimateCycles ⟨120, 50, Sync.Estimate, 2, 7⟩ [3, 0]).wakeTime % 60 = 0 ∧
    (120 : Int) < (estimateCycles ⟨120, 50, Sync.Estimate, 2, 7⟩ [3, 0]).wakeTime := by
  have h := estimate_cycles_frame ⟨120, 50, Sync.Estimate, 2, 7⟩ [3, 0]
    (by decide) (by decide)
  obtain ⟨h1, h2, h3, h4, h5⟩ := h
  have h6 := h5 (by decide)
  exact ⟨h1, h2, h3, h4, h6.1, h6.2⟩

/-- Claim C10: under operational bounds (drift up to 100000 seconds,
awake time up to 10000 seconds in milliseconds, positive interval up to
1000000 seconds — generous on multi-day intervals with millisecond-scale
drift), every intermediate of the drift computation — the
seconds-to-milliseconds product, the residual in milliseconds, the
`60 * driftMillis` product, the quotient by `interval`, and the final
increment — stays strictly inside a signed 64-bit integer; the increment
is exactly the quotient of the already-multiplied product (division last),
and on the worked figures multiply-then-divide keeps precision
(10000 microseconds) where divide-first would lose it all (0). -/
theorem drift_numeric_care (ntpTime wakeT elapsedMillis interval : Int)
    (hd : (ntpTime - wakeT).natAbs ≤ 100000)
    (he : elapsedMillis.natAbs ≤ 10000000)
    (hiv : 0 < interval) (hiv2 : interval ≤ 1000000) :
    ((ntpTime - wakeT) * 1000).natAbs < 2 ^ 63 ∧
    (driftMillisOf ntpTime wakeT elapsedMillis).natAbs < 2 ^ 63 ∧
    (60 * driftMillisOf ntpTime wakeT elapsedMillis).natAbs < 2 ^ 63 ∧
    ((60 * driftMillisOf ntpTime wakeT elapsedMillis).tdiv interval).natAbs < 2 ^ 63 ∧
    (driftIncrementOf (driftMillisOf ntpTime wakeT elapsedMillis) interval).natAbs < 2 ^ 63 ∧
    driftIncrementOf (driftMillisOf ntpTime wakeT elapsedMillis) interval =
      1000 * ((60 * driftMillisOf ntpTime wakeT elapsedMillis).tdiv interval) ∧
    driftIncrementOf 4800 28800 = 10000 ∧
    1000 * (60 * ((4800 : Int).tdiv 28800)) = 0 := by
  have hdm : driftMillisOf ntpTime wakeT elapsedMillis =
      (ntpTime - wakeT) * 1000 - elapsedMillis := rfl
  have hq : ((60 * driftMillisOf ntpTime wakeT elapsedMillis).tdiv interval).natAbs =
      (60 * driftMillisOf ntpTime wakeT elapsedMillis).natAbs / interval.natAbs :=
    Int.natAbs_tdiv _ _
  have hqle : ((60 * driftMillisOf ntpTime wakeT elapsedMillis).tdiv interval).natAbs ≤
      (60 * driftMillisOf ntpTime wakeT elapsedMillis).natAbs := by
    rw [hq]
    exact Nat.div_le_self _ _
  have hinc : driftIncrementOf (driftMillisOf ntpTime wakeT elapsedMillis) interval =
      1000 * ((60 * driftMillisOf ntpTime wakeT elapsedMillis).tdiv interval) := rfl
  have hincAbs : (driftIncrementOf (driftMillisOf ntpTime wakeT elapsedMillis) interval).natAbs =
      1000 * ((60 * driftMillisOf ntpTime wakeT elapsedMillis).tdiv interval).natAbs := by
    rw [hinc, Int.natAbs_mul]
    rfl
  refine ⟨?_, ?_, ?_, ?_, ?_, hinc, by decide, by decide⟩ <;> rw [hdm] at * <;> omega

/-- Claim C10 witness: the worked-example figures satisfy the bounds and
every intermediate is small. -/
theorem drift_numeric_care_witness :
    ((1700028800 - 1700028795 : Int)).natAbs ≤ 100000 ∧
    ((200 : Int)).natAbs ≤ 10000000 ∧
    (0 : Int) < 28800 ∧ (28800 : Int) ≤ 1000000 ∧
    (driftIncrementOf (driftMillisOf 1700028800 1700028795 200) 28800).natAbs < 2 ^ 63 := by
  have h := drift_numeric_care 1700028800 1700028795 200 28800
    (by decide) (by decide) (by decide) (by decide)
  exact ⟨by decide, by decide, by decide, by decide, h.2.2.2.2.1⟩

end LowPowerClock
